import Mathlib

/-!
Verification of the NKO query-processing pipeline (`src/mcp_server/server.py`,
`src/mcp_server/main.py`, `src/mcp_server/mcp.py`) against its specification.

The network collaborators (the completion provider and the backend search API)
are modelled as oracles passed in as arguments: a completion call is an
`Except String String` (error, or the raw text content), a backend call is a
function from the request parameters to `Except String (List NkoRecord)`.
Python values that can escape `json.loads` are modelled by the inductive
type `PyVal`; Python truthiness is modelled explicitly.
-/

namespace NKO

/-- A Python value as produced by `json.loads` (and by the comma-split
fallback, which produces a list of strings).  JSON numbers are kept as their
source lexeme so that no floating-point semantics enter the model. -/
inductive PyVal where
  | null : PyVal
  | bool : Bool → PyVal
  | num : String → PyVal
  | str : String → PyVal
  | list : List PyVal → PyVal
  | dict : List (String × PyVal) → PyVal

/-- Python truthiness of a JSON number lexeme: the digitless lexemes `NaN`,
`Infinity` and `-Infinity` are truthy (Python's `float("nan")` and
`float("inf")` are), and an ordinary number is falsy exactly when its
mantissa digits are all zero (the exponent cannot make a nonzero mantissa
zero, except by floating-point underflow, which this lexeme-level model does
not reproduce). -/
def numTruthy (s : String) : Bool :=
  (s.data.all fun c => ¬ c.isDigit) ∨
    ((s.data.takeWhile (fun c => c ≠ 'e' ∧ c ≠ 'E')).filter Char.isDigit).any (· ≠ '0')

/-- Python truthiness of a `PyVal`. -/
def PyVal.truthy : PyVal → Bool
  | .null => false
  | .bool b => b
  | .num s => numTruthy s
  | .str s => s ≠ ""
  | .list xs => ¬ xs.isEmpty
  | .dict xs => ¬ xs.isEmpty

/-- Python truthiness of an `Optional[str]`: `None` and `""` are falsy. -/
def optStrTruthy : Option String → Bool
  | none => false
  | some s => s ≠ ""

/-! ### A model of Python `json.loads`

A fuel-indexed recursive-descent parser over the character list of the input.
`jsonLoads` succeeds exactly when the whole string (up to surrounding
whitespace) is one valid JSON value; on failure the source code's
`except json.JSONDecodeError` branch fires. -/

/-- JSON insignificant whitespace (as accepted by Python `json.loads`). -/
def isJsonWs (c : Char) : Bool :=
  c = ' ' ∨ c = '\t' ∨ c = '\n' ∨ c = '\r'

/-- Skip insignificant whitespace. -/
def skipWs (cs : List Char) : List Char := cs.dropWhile isJsonWs

/-- Hexadecimal digit test (ASCII). -/
def isHexDigit (c : Char) : Bool :=
  c.isDigit ∨ ('a' ≤ c ∧ c ≤ 'f') ∨ ('A' ≤ c ∧ c ≤ 'F')

/-- Value of a hexadecimal digit. -/
def hexVal (c : Char) : Nat :=
  c.toNat % 16 + (if c.isDigit then 0 else 9)

/-- Parse the body of a JSON string literal after the opening quote, handling
the standard escapes; returns the decoded string and the rest of the input.
As in Python's strict `json.loads`, an unescaped control character (below
U+0020) is rejected, and a `\u` high surrogate immediately followed by a
`\u` low surrogate decodes as one paired code point.  (A lone surrogate is
kept by Python inside its `str`; a Lean `Char` cannot carry a surrogate code
point, so this model maps it to U+0000 — no input any claim is about
contains surrogate escapes.)  The function is indexed by fuel so that the
recursion is structural; every step consumes at least one character, so any
fuel above the input length is adequate, and the call sites pass the
remaining length plus one. -/
def parseStringBody : Nat → List Char → Option (String × List Char)
  | 0, _ => none
  | _, [] => none
  | _, '"' :: rest => some ("", rest)
  | fuel + 1, '\\' :: rest =>
    match rest with
    | 'u' :: h1 :: h2 :: h3 :: h4 :: rest' =>
      if isHexDigit h1 ∧ isHexDigit h2 ∧ isHexDigit h3 ∧ isHexDigit h4 then
        let n := hexVal h1 * 4096 + hexVal h2 * 256 + hexVal h3 * 16 + hexVal h4
        if 0xD800 ≤ n ∧ n ≤ 0xDBFF then
          match rest' with
          | '\\' :: 'u' :: g1 :: g2 :: g3 :: g4 :: rest'' =>
            if isHexDigit g1 ∧ isHexDigit g2 ∧ isHexDigit g3 ∧ isHexDigit g4 then
              let m := hexVal g1 * 4096 + hexVal g2 * 256 + hexVal g3 * 16 + hexVal g4
              if 0xDC00 ≤ m ∧ m ≤ 0xDFFF then
                let code := 0x10000 + (n - 0xD800) * 0x400 + (m - 0xDC00)
                match parseStringBody fuel rest'' with
                | some (s, rem) => some (String.mk (Char.ofNat code :: s.data), rem)
                | none => none
              else
                match parseStringBody fuel rest' with
                | some (s, rem) => some (String.mk (Char.ofNat n :: s.data), rem)
                | none => none
            else none
          | _ =>
            match parseStringBody fuel rest' with
            | some (s, rem) => some (String.mk (Char.ofNat n :: s.data), rem)
            | none => none
        else
          match parseStringBody fuel rest' with
          | some (s, rem) => some (String.mk (Char.ofNat n :: s.data), rem)
          | none => none
      else none
    | e :: rest' =>
      let dec : Option Char :=
        if e = '"' then some '"'
        else if e = '\\' then some '\\'
        else if e = '/' then some '/'
        else if e = 'b' then some (Char.ofNat 8)
        else if e = 'f' then some (Char.ofNat 12)
        else if e = 'n' then some '\n'
        else if e = 'r' then some '\r'
        else if e = 't' then some '\t'
        else none
      match dec with
      | some c =>
        match parseStringBody fuel rest' with
        | some (s, rem) => some (String.mk (c :: s.data), rem)
        | none => none
      | none => none
    | [] => none
  | fuel + 1, c :: rest =>
    if c.toNat < 32 then none
    else
      match parseStringBody fuel rest with
      | some (s, rem) => some (String.mk (c :: s.data), rem)
      | none => none

/-- Parse the digit run of a JSON number. -/
def takeDigits (cs : List Char) : List Char × List Char :=
  (cs.takeWhile Char.isDigit, cs.dropWhile Char.isDigit)

/-- Parse a JSON number (grammar `-?(0|[1-9][0-9]*)(\.[0-9]+)?([eE][+-]?[0-9]+)?`),
returning its lexeme; Python `json.loads` additionally accepts the tokens
`NaN`, `Infinity` and `-Infinity`, handled in `parseVal`. -/
def parseNumber (cs : List Char) : Option (String × List Char) :=
  let (sign, cs1) := match cs with
    | '-' :: rest => (['-'], rest)
    | _ => ([], cs)
  match takeDigits cs1 with
  | ([], _) => none
  | (ds, cs2) =>
    if ds.length > 1 ∧ ds.headD '0' = '0' then none
    else
      let (frac, cs3) := match cs2 with
        | '.' :: rest =>
          match takeDigits rest with
          | ([], _) => ([], cs2)
          | (fs, rest') => ('.' :: fs, rest')
        | _ => ([], cs2)
      if (match cs2 with | '.' :: _ => frac.isEmpty | _ => false) then none
      else
        let (expo, cs4) := match cs3 with
          | e :: rest =>
            if e = 'e' ∨ e = 'E' then
              let (es, rest') := match rest with
                | s :: r => if s = '+' ∨ s = '-' then ([s], r) else ([], rest)
                | [] => ([], rest)
              match takeDigits rest' with
              | ([], _) => (([] : List Char), cs3)
              | (xs, rest'') => (e :: es ++ xs, rest'')
            else ([], cs3)
          | [] => ([], cs3)
        some (String.mk (sign ++ ds ++ frac ++ expo), cs4)

mutual

/-- Parse one JSON value (fuel-indexed). -/
def parseVal : Nat → List Char → Option (PyVal × List Char)
  | 0, _ => none
  | fuel + 1, cs =>
    match skipWs cs with
    | 'n' :: 'u' :: 'l' :: 'l' :: rest => some (.null, rest)
    | 't' :: 'r' :: 'u' :: 'e' :: rest => some (.bool true, rest)
    | 'f' :: 'a' :: 'l' :: 's' :: 'e' :: rest => some (.bool false, rest)
    | 'N' :: 'a' :: 'N' :: rest => some (.num "NaN", rest)
    | 'I' :: 'n' :: 'f' :: 'i' :: 'n' :: 'i' :: 't' :: 'y' :: rest =>
      some (.num "Infinity", rest)
    | '-' :: 'I' :: 'n' :: 'f' :: 'i' :: 'n' :: 'i' :: 't' :: 'y' :: rest =>
      some (.num "-Infinity", rest)
    | '"' :: rest =>
      match parseStringBody (rest.length + 1) rest with
      | some (s, rem) => some (.str s, rem)
      | none => none
    | '[' :: rest =>
      (match skipWs rest with
       | ']' :: rem => some (.list [], rem)
       | _ =>
         match parseElems fuel rest with
         | some (xs, rem) => some (.list xs, rem)
         | none => none)
    | '{' :: rest =>
      (match skipWs rest with
       | '}' :: rem => some (.dict [], rem)
       | _ =>
         match parseMembers fuel rest with
         | some (xs, rem) => some (.dict xs, rem)
         | none => none)
    | other =>
      match parseNumber other with
      | some (s, rem) => some (.num s, rem)
      | none => none

/-- Parse a non-empty comma-separated list of array elements up to `]`. -/
def parseElems : Nat → List Char → Option (List PyVal × List Char)
  | 0, _ => none
  | fuel + 1, cs =>
    match parseVal fuel cs with
    | some (v, rem) =>
      (match skipWs rem with
       | ',' :: rest =>
         match parseElems fuel rest with
         | some (xs, rem') => some (v :: xs, rem')
         | none => none
       | ']' :: rest => some ([v], rest)
       | _ => none)
    | none => none

/-- Parse a non-empty comma-separated list of object members up to a closing
brace. -/
def parseMembers : Nat → List Char → Option (List (String × PyVal) × List Char)
  | 0, _ => none
  | fuel + 1, cs =>
    match skipWs cs with
    | '"' :: rest =>
      match parseStringBody (rest.length + 1) rest with
      | some (k, rem) =>
        (match skipWs rem with
         | ':' :: rest' =>
           match parseVal fuel rest' with
           | some (v, rem') =>
             (match skipWs rem' with
              | ',' :: rest'' =>
                match parseMembers fuel rest'' with
                | some (xs, rem'') => some ((k, v) :: xs, rem'')
                | none => none
              | '}' :: rest'' => some ([(k, v)], rest'')
              | _ => none)
           | none => none
         | _ => none)
      | none => none
    | _ => none

end

/-- Model of Python `json.loads`: parse one JSON value, requiring that only
whitespace remains afterwards; `none` models `json.JSONDecodeError`. -/
def jsonLoads (s : String) : Option PyVal :=
  match parseVal (s.length + 1) s.data with
  | some (v, rest) => if (skipWs rest).isEmpty then some v else none
  | none => none

/-! ### Models of the Python `str` methods used by the source

A Python `str` is a sequence of code points, so these are defined by
structural recursion on the character list of the Lean string. -/

/-- Whitespace as stripped by Python `str.strip()` (the ASCII part, which is
all that the sentinel comparisons in the source can be sensitive to). -/
def isPyWs (c : Char) : Bool :=
  c = ' ' ∨ c = '\t' ∨ c = '\n' ∨ c = '\r' ∨ c = Char.ofNat 11 ∨ c = Char.ofNat 12

/-- Strip leading whitespace from a character list. -/
def stripLeft (cs : List Char) : List Char := cs.dropWhile isPyWs

/-- Model of Python `str.strip()`: drop whitespace from both ends. -/
def pyStrip (s : String) : String :=
  String.mk ((stripLeft (stripLeft s.data).reverse).reverse)

/-- Split a character list on a separator character, keeping empty pieces,
like Python `str.split(sep)` with a one-character separator. -/
def splitChars (sep : Char) : List Char → List Char → List (List Char)
  | acc, [] => [acc.reverse]
  | acc, c :: rest =>
    if c = sep then acc.reverse :: splitChars sep [] rest
    else splitChars sep (c :: acc) rest

/-- Model of Python `str.split(",")`. -/
def pySplit (s : String) (sep : Char) : List String :=
  (splitChars sep [] s.data).map String.mk

/-- Model of Python `str.lower()` (the ASCII part, which is all that the
comparison against the literal sentinel "null" can be sensitive to). -/
def pyLower (s : String) : String :=
  String.mk (s.data.map fun c => if 'A' ≤ c ∧ c ≤ 'Z' then Char.ofNat (c.toNat + 32) else c)

/-- Python truthiness of an `Optional[int]`: `None` and `0` are falsy. -/
def optIntTruthy : Option Int → Bool
  | none => false
  | some n => n ≠ 0

/-! ### The data model of the query pipeline -/

/-- An organization record returned by the Backend Search API; its payload is
opaque to the query layer, which only counts, truncates and forwards it. -/
abbrev NkoRecord := String

/-- The query-parameter dictionary sent to `GET /nko`
(`nko_params` in `process_user_query`); a key is present iff its field is
`some`. -/
structure NkoParams where
  jwt_token : Option String := none
  city : Option String := none
  category : Option PyVal := none

/-- The Backend Search API as an oracle: a call either returns a record list
or raises (the `.error` case). -/
abbrev Backend := NkoParams → Except String (List NkoRecord)

/-- `get_nko_list` (src/mcp_server/server.py lines 67-75; identical in
src/mcp_server/main.py lines 36-44): issue the backend call; any raised
error is caught, logged and converted to the empty list. -/
def get_nko_list (backend : Backend) (params : NkoParams) : List NkoRecord :=
  match backend params with
  | .ok l => l
  | .error _ => []

/-- `extract_city_from_query` (src/mcp_server/server.py lines 77-98; identical
in src/mcp_server/main.py lines 70-91).  The completion call is the oracle
argument; a raised provider error is the `.error` case.  The stripped content
is compared case-insensitively against the sentinel "null". -/
def extract_city_from_query (completion : Except String String) : Option String :=
  match completion with
  | .error _ => none
  | .ok content =>
    let city := pyStrip content
    if pyLower city ≠ "null" then some city else none

/-- `extract_categories_from_query` (src/mcp_server/server.py lines 100-125;
identical in src/mcp_server/main.py lines 93-118).  The stripped content is
parsed with `json.loads` and that parse result is returned as is; on a parse
error the content is split on commas, each piece stripped and empty pieces
discarded; a raised provider error yields the empty list. -/
def extract_categories_from_query (completion : Except String String) : PyVal :=
  match completion with
  | .error _ => .list []
  | .ok content =>
    let categories_str := pyStrip content
    match jsonLoads categories_str with
    | some v => v
    | none =>
      .list ((((pySplit categories_str ',').map pyStrip).filter
        (fun cat => cat ≠ "")).map PyVal.str)

/-- The `nko_params` dictionary built in `process_user_query`
(src/mcp_server/server.py lines 135-141): each key is added only when its
value is Python-truthy. -/
def server_nko_params (jwt_token : Option String) (city : Option String)
    (categories : PyVal) : NkoParams :=
  { jwt_token := if optStrTruthy jwt_token then jwt_token else none,
    city := if optStrTruthy city then city else none,
    category := if categories.truthy then some categories else none }

/-- The fallback cascade of `process_user_query`
(src/mcp_server/server.py lines 143-151; identical in
src/mcp_server/main.py lines 134-142): call with the full parameter set; if
the result is empty and a city is truthy, retry with a city-only parameter
set; if the result is still empty, retry with no parameters at all. -/
def fallback_result (backend : Backend) (city : Option String)
    (nko_params : NkoParams) : List NkoRecord :=
  let nko_list := get_nko_list backend nko_params
  let nko_list :=
    if nko_list.isEmpty && optStrTruthy city then
      get_nko_list backend { city := city }
    else nko_list
  if nko_list.isEmpty then get_nko_list backend {} else nko_list

/-- The sequence of backend calls the fallback cascade issues, in order
(instrumentation of `fallback_result`; same guards, collecting the parameter
sets actually sent). -/
def fallback_calls (backend : Backend) (city : Option String)
    (nko_params : NkoParams) : List NkoParams :=
  let r1 := get_nko_list backend nko_params
  if r1.isEmpty && optStrTruthy city then
    let r2 := get_nko_list backend { city := city }
    if r2.isEmpty then [nko_params, { city := city }, {}]
    else [nko_params, { city := city }]
  else if r1.isEmpty then [nko_params, {}]
  else [nko_params]

/-- The `context` dictionary handed to the composing completion call
(src/mcp_server/server.py lines 153-160; identical in
src/mcp_server/main.py lines 144-151): the full query, the extracted
filters, the total match count, and the record list truncated to the first
five records. -/
structure RecommendationContext where
  user_query : String
  extracted_city : Option String
  extracted_categories : PyVal
  nko_count : Nat
  nko_data : List NkoRecord

/-- Build the `RecommendationContext` exactly as the source does:
`nko_count = len(nko_list)` and `nko_data = nko_list[:5]`. -/
def build_context (query : String) (city : Option String) (categories : PyVal)
    (nko_list : List NkoRecord) : RecommendationContext :=
  { user_query := query,
    extracted_city := city,
    extracted_categories := categories,
    nko_count := nko_list.length,
    nko_data := nko_list.take 5 }

/-- The composing completion call as an oracle: it consumes the
`RecommendationContext` (serialized into its system prompt by the source) and
either returns the response text or raises. -/
abbrev Composer := RecommendationContext → Except String String

/-- The dictionary returned by the server's `process_user_query`
(src/mcp_server/server.py lines 193-205). -/
structure QueryResult where
  response : String
  city : Option String
  categories : PyVal

/-- The fixed apologetic response text of the orchestrator's exception
handler, with the error detail appended. -/
def apologetic (e : String) : String :=
  "Извините, произошла ошибка при обработке вашего запроса: " ++ e

/-- `QueryResponse` (src/mcp_server/server.py lines 61-64): the pydantic
response model of the `POST /query` endpoint; `categories` is declared
`List[str]`. -/
structure QueryResponse where
  response : String
  city : Option String
  categories : List String

/-- The `categories` validation performed by `QueryResponse(**result)`
(src/mcp_server/server.py line 215): the value must be a list of strings,
otherwise pydantic raises a `ValidationError`.  (Pydantic v1 would coerce
some non-string members to strings where v2 rejects them; the non-list case
— e.g. the `None` that the category extractor returns on the raw completion
text "null" — fails validation in every version, and is the only case any
claim depends on.) -/
def pyStrList : PyVal → Option (List String)
  | .list xs => xs.mapM fun v => match v with | .str s => some s | _ => none
  | _ => none

/-- A failure escaping the `POST /query` endpoint: either the deliberate
`HTTPException` of the configuration guard, or the pydantic
`ValidationError` raised by `QueryResponse(**result)` — nothing catches the
latter, so the transport turns it into a raw 500. -/
inductive EndpointError where
  | httpException (status_code : Nat) (detail : String)
  | validationError

namespace Server

/-- `process_user_query` (src/mcp_server/server.py lines 127-205): extract
city and categories, run the fallback cascade, build the context, compose;
a raised exception (in this model: a composer error, the only uncaught
raise site inside the `try`) is converted to the apologetic result with
`city = None` and `categories = []`. -/
def process_user_query (query : String) (jwt_token : Option String)
    (cityCompletion catCompletion : Except String String)
    (backend : Backend) (composer : Composer) : QueryResult :=
  let city := extract_city_from_query cityCompletion
  let categories := extract_categories_from_query catCompletion
  let nko_params := server_nko_params jwt_token city categories
  let nko_list := fallback_result backend city nko_params
  let context := build_context query city categories nko_list
  match composer context with
  | .ok text => { response := text, city := city, categories := categories }
  | .error e => { response := apologetic e, city := none, categories := .list [] }

/-- The `RecommendationContext` that `process_user_query` hands to the
composing completion call: the `context` local of
src/mcp_server/server.py lines 153-160, expressed as a function of the
cycle's inputs. -/
def the_context (query : String) (jwt_token : Option String)
    (cityCompletion catCompletion : Except String String)
    (backend : Backend) : RecommendationContext :=
  let city := extract_city_from_query cityCompletion
  let categories := extract_categories_from_query catCompletion
  build_context query city categories
    (fallback_result backend city (server_nko_params jwt_token city categories))

/-- `process_user_query` consumes the composer oracle exactly at
`the_context`: the whole cycle is the composer's answer on that context,
with the error case converted to the apologetic shape. -/
theorem process_user_query_eq (query : String) (jwt_token : Option String)
    (cityCompletion catCompletion : Except String String)
    (backend : Backend) (composer : Composer) :
    process_user_query query jwt_token cityCompletion catCompletion backend composer =
      match composer (the_context query jwt_token cityCompletion catCompletion backend) with
      | .ok text =>
        { response := text, city := extract_city_from_query cityCompletion,
          categories := extract_categories_from_query catCompletion }
      | .error e =>
        { response := apologetic e, city := none, categories := .list [] } := rfl

/-- `query_nko`, the `POST /query` endpoint (src/mcp_server/server.py lines
208-215): if the provider API key is not configured (Python-falsy), raise a
500 `HTTPException` at once; otherwise run `process_user_query` and return
`QueryResponse(**result)`, whose construction validates the result against
the response model — a `categories` value that is not a list of strings
makes pydantic raise a `ValidationError` out of the endpoint. -/
def query_nko (OPENROUTER_API_KEY : Option String) (query : String)
    (jwt_token : Option String) (cityCompletion catCompletion : Except String String)
    (backend : Backend) (composer : Composer) : Except EndpointError QueryResponse :=
  if ¬ optStrTruthy OPENROUTER_API_KEY then
    .error (.httpException 500 "OpenRouter API key not configured")
  else
    let result := process_user_query query jwt_token cityCompletion catCompletion backend composer
    match pyStrList result.categories with
    | some categories =>
      .ok { response := result.response, city := result.city, categories := categories }
    | none => .error .validationError

end Server

namespace Main

/-- The `nko_params` dictionary built in the standalone runner's
`process_user_query` (src/mcp_server/main.py lines 128-132): as the server's,
but the runner takes no auth token at all. -/
def main_nko_params (city : Option String) (categories : PyVal) : NkoParams :=
  { city := if optStrTruthy city then city else none,
    category := if categories.truthy then some categories else none }

/-- `process_user_query` of the standalone runner (src/mcp_server/main.py
lines 120-188): same pipeline as the server's but without an auth token, and
returning the response text alone (the apologetic text on a raised
exception). -/
def process_user_query (query : String)
    (cityCompletion catCompletion : Except String String)
    (backend : Backend) (composer : Composer) : String :=
  let city := extract_city_from_query cityCompletion
  let categories := extract_categories_from_query catCompletion
  let nko_params := main_nko_params city categories
  let nko_list := fallback_result backend city nko_params
  let context := build_context query city categories nko_list
  match composer context with
  | .ok text => text
  | .error e => apologetic e

end Main

namespace Mcp

/-- A failure of a backend call made by an MCP tool: either an HTTP status
error (`httpx.HTTPStatusError`, carrying the status code and response text)
or any other exception. -/
inductive BackendError where
  | httpStatus (status_code : Nat) (text : String)
  | other (msg : String)

/-- `get_nko_by_id` (src/mcp_server/mcp.py lines 167-195): the tool returns a
single text content; the backend oracle returns the serialized record body.
The missing-argument guard is `if not nko_id:`, i.e. Python falsiness of the
supplied `nko_id`. -/
def get_nko_by_id (nko_id : Option Int)
    (backend : Int → Except BackendError String) : List String :=
  if ¬ optIntTruthy nko_id then ["Error: nko_id is required"]
  else
    match nko_id with
    | some i =>
      match backend i with
      | .ok body => [body]
      | .error (.httpStatus code text) =>
        if code = 404 then ["NKO with ID " ++ toString i ++ " not found"]
        else ["HTTP error " ++ toString code ++ ": " ++ text]
      | .error (.other msg) => ["Error fetching NKO: " ++ msg]
    | none => ["Error: nko_id is required"]

end Mcp

/-! ## The claims -/

/-- Claim C1: in every orchestration cycle the fallback cascade tries the
candidate filter sets in the fixed order full set, city-only (only when the
full set came back empty and a city was extracted — in the source, a
Python-truthy city — ), then the empty set (only when the result is still
empty or the city tier was skipped); the first candidate whose call returns
a non-empty record set wins, and the list of issued backend calls is exactly
the tried candidates, one call each. -/
theorem fallback_cascade_order (backend : Backend) (jwt_token : Option String)
    (cityCompletion catCompletion : Except String String) :
    let city := extract_city_from_query cityCompletion
    let categories := extract_categories_from_query catCompletion
    let p0 := server_nko_params jwt_token city categories
    let r1 := get_nko_list backend p0
    let r2 := get_nko_list backend { city := city }
    let r3 := get_nko_list backend {}
    (fallback_calls backend city p0, fallback_result backend city p0) =
      if r1.isEmpty then
        (if optStrTruthy city then
          (if r2.isEmpty then ([p0, { city := city }, {}], r3)
           else ([p0, { city := city }], r2))
         else ([p0, {}], r3))
      else ([p0], r1) := by
  intro city categories p0 r1 r2 r3
  simp only [fallback_calls, fallback_result, Prod.mk.injEq]
  rcases h1 : r1.isEmpty <;> rcases h2 : optStrTruthy city <;>
    rcases h3 : r2.isEmpty <;>
    simp_all [r1, r2, r3]

/-- Claim C2: a backend call that raises is treated as zero results for that
candidate (first conjunct); the whole cascade — result and issued calls — is
unchanged if every raising call is replaced by a successful empty answer, so
an error just makes the cascade proceed to the next candidate (second and
third conjuncts); and even when every call raises, the engine still returns
the terminal empty record set after trying every candidate instead of
raising (last conjunct). -/
theorem fallback_error_as_zero_results (backend : Backend) (city : Option String)
    (p0 : NkoParams) (e : String) (h : backend p0 = .error e) :
    get_nko_list backend p0 = [] ∧
    fallback_result backend city p0 =
      fallback_result (fun p => .ok (get_nko_list backend p)) city p0 ∧
    fallback_calls backend city p0 =
      fallback_calls (fun p => .ok (get_nko_list backend p)) city p0 ∧
    (∀ e' : String,
      fallback_result (fun _ => .error e') city p0 = [] ∧
      fallback_calls (fun _ => .error e') city p0 =
        (if optStrTruthy city then [p0, { city := city }, {}] else [p0, {}])) := by
  refine ⟨by simp [get_nko_list, h], rfl, rfl, fun e' => ⟨?_, ?_⟩⟩ <;>
    rcases h2 : optStrTruthy city <;>
    simp [fallback_result, fallback_calls, get_nko_list, h2]

/-- Closed instance of claim C2 at a backend that raises on every call with a
truthy extracted city: the hypothesis holds by computation and the cascade
tries all three candidates and returns the empty record set. -/
theorem fallback_error_as_zero_results_witness :
    (fun _ : NkoParams => (Except.error "boom" : Except String (List NkoRecord)))
        {} = .error "boom" ∧
    (get_nko_list (fun _ => .error "boom") {} = [] ∧
     fallback_result (fun _ => .error "boom") (some "Казань") {} =
       fallback_result
         (fun p => .ok (get_nko_list (fun _ => .error "boom") p)) (some "Казань") {} ∧
     fallback_calls (fun _ => .error "boom") (some "Казань") {} =
       fallback_calls
         (fun p => .ok (get_nko_list (fun _ => .error "boom") p)) (some "Казань") {} ∧
    (∀ e' : String,
      fallback_result (fun _ => .error e') (some "Казань") {} = [] ∧
      fallback_calls (fun _ => .error e') (some "Казань") {} =
        (if optStrTruthy (some "Казань")
         then [{}, { city := some "Казань" }, {}]
         else [{}, {}]))) :=
  ⟨rfl, fallback_error_as_zero_results (fun _ => .error "boom") (some "Казань") {} "boom" rfl⟩

/-- Claim C3 (bug evidence): the category extractor returns the `json.loads`
result unchecked, so the raw completion text "null" — valid JSON — makes it
return Python `None` rather than a sequence of strings, violating the
"categories is never null" invariant (and the function's own declared
`List[str]` return type); likewise a JSON array with non-string members is
passed through as is. -/
theorem extract_categories_null_passthrough :
    extract_categories_from_query (.ok "null") = PyVal.null ∧
    (∀ xs : List PyVal, PyVal.null ≠ PyVal.list xs) ∧
    extract_categories_from_query (.ok "[\"еда\", 1]") =
      .list [.str "еда", .num "1"] := by
  refine ⟨rfl, fun xs h => ?_, rfl⟩
  exact PyVal.noConfusion h

/-- Claim C4: a raised provider error during extraction yields
`city = None` and `categories = []`, and the cycle proceeds on this degraded
path: the orchestrator still runs the cascade with the empty extracted
filters, builds the context and answers. -/
theorem extraction_failure_degrades (e1 e2 : String) (query : String)
    (jwt_token : Option String) (backend : Backend) (composer : Composer) :
    extract_city_from_query (.error e1) = none ∧
    extract_categories_from_query (.error e2) = .list [] ∧
    Server.process_user_query query jwt_token (.error e1) (.error e2) backend composer =
      (match composer (build_context query none (.list [])
          (fallback_result backend none (server_nko_params jwt_token none (.list [])))) with
       | .ok text => { response := text, city := none, categories := .list [] }
       | .error er =>
         { response := apologetic er, city := none, categories := .list [] }) :=
  ⟨rfl, rfl, rfl⟩

/-- Claim C5: the category extractor parses the stripped raw text with
`json.loads` and returns that parse result whenever the text is valid JSON;
when parsing fails it splits the text on commas, strips each piece and drops
the empty ones; in particular the malformed text "едa, помощь животным"
fails to parse and comma-splits to exactly the two given categories. -/
theorem categories_parse_roundtrip :
    (∀ raw v, jsonLoads (pyStrip raw) = some v →
      extract_categories_from_query (.ok raw) = v) ∧
    (∀ raw, jsonLoads (pyStrip raw) = none →
      extract_categories_from_query (.ok raw) =
        .list ((((pySplit (pyStrip raw) ',').map pyStrip).filter
          (fun cat => cat ≠ "")).map PyVal.str)) ∧
    jsonLoads "едa, помощь животным" = none ∧
    extract_categories_from_query (.ok "едa, помощь животным") =
      .list [.str "едa", .str "помощь животным"] := by
  refine ⟨fun raw v h => ?_, fun raw h => ?_, rfl, rfl⟩ <;>
    simp [extract_categories_from_query, h]

/-- Closed instance of claim C5: a valid JSON array parses via the JSON path
and is returned identically, and the malformed comma text yields the two
split categories. -/
theorem categories_parse_roundtrip_witness :
    jsonLoads (pyStrip "[\"еда\"]") = some (.list [.str "еда"]) ∧
    extract_categories_from_query (.ok "[\"еда\"]") = .list [.str "еда"] ∧
    extract_categories_from_query (.ok "едa, помощь животным") =
      .list [.str "едa", .str "помощь животным"] :=
  ⟨rfl, categories_parse_roundtrip.1 "[\"еда\"]" (.list [.str "еда"]) rfl,
    categories_parse_roundtrip.2.2.2⟩

/-- Claim C6: the context handed to the composer carries exactly the first
five records of the winning record set (so at most five whatever its size)
while its `nko_count` is the full length; the orchestrator consumes the
composer only at that context; and a record set of twelve yields a context
carrying exactly five. -/
theorem context_caps_records (query : String) (jwt_token : Option String)
    (cityCompletion catCompletion : Except String String) (backend : Backend)
    (composer composer' : Composer) :
    let city := extract_city_from_query cityCompletion
    let categories := extract_categories_from_query catCompletion
    let winning := fallback_result backend city (server_nko_params jwt_token city categories)
    let ctx := Server.the_context query jwt_token cityCompletion catCompletion backend
    ctx.nko_data = winning.take 5 ∧
    ctx.nko_data.length ≤ 5 ∧
    ctx.nko_count = winning.length ∧
    (composer ctx = composer' ctx →
      Server.process_user_query query jwt_token cityCompletion catCompletion backend composer =
        Server.process_user_query query jwt_token cityCompletion catCompletion backend composer') ∧
    (build_context "запрос" none (.list []) ((List.range 12).map toString)).nko_data.length = 5 := by
  intro city categories winning ctx
  refine ⟨rfl, ?_, rfl, fun h => ?_, rfl⟩
  · simp only [ctx, Server.the_context, build_context, List.length_take]
    exact Nat.min_le_left 5 winning.length
  · rw [Server.process_user_query_eq, Server.process_user_query_eq, h]

/-- Closed instance of claim C6: with a backend holding twelve records the
context carries at most five, and the orchestrator depends on the composer
only through its value at the context. -/
theorem context_caps_records_witness :
    (fun _ : RecommendationContext => (Except.ok "ответ" : Except String String))
        (Server.the_context "запрос" none (Except.error "e") (Except.error "e")
          (fun _ => .ok ((List.range 12).map toString))) =
      (fun _ : RecommendationContext => (Except.ok "ответ" : Except String String))
        (Server.the_context "запрос" none (Except.error "e") (Except.error "e")
          (fun _ => .ok ((List.range 12).map toString))) ∧
    (Server.the_context "запрос" none (Except.error "e") (Except.error "e")
        (fun _ => .ok ((List.range 12).map toString))).nko_data.length ≤ 5 ∧
    Server.process_user_query "запрос" none (Except.error "e") (Except.error "e")
        (fun _ => .ok ((List.range 12).map toString)) (fun _ => .ok "ответ") =
      Server.process_user_query "запрос" none (Except.error "e") (Except.error "e")
        (fun _ => .ok ((List.range 12).map toString)) (fun _ => .ok "ответ") :=
  ⟨rfl,
   (context_caps_records "запрос" none (Except.error "e") (Except.error "e")
      (fun _ => .ok ((List.range 12).map toString))
      (fun _ => .ok "ответ") (fun _ => .ok "ответ")).2.1,
   (context_caps_records "запрос" none (Except.error "e") (Except.error "e")
      (fun _ => .ok ((List.range 12).map toString))
      (fun _ => .ok "ответ") (fun _ => .ok "ответ")).2.2.2.1 rfl⟩

/-- Claim C7: every exception raised at a stage inside the orchestrator is
caught at the orchestrator level and converted into the apologetic response
shape (error detail embedded, `city = None`, `categories = []`): the
orchestrator returns the composed text on success and the apologetic shape
on a raised composition error (first two conjuncts); through the configured
endpoint a composition failure arrives as the well-formed apologetic
`Response` — which always passes the `QueryResponse(**result)` validation,
its categories being the empty string list (third conjunct) — and even a
cycle in which extraction, every backend call and the composition all raise
still delivers that well-formed `Response` at the transport boundary (last
conjunct).  The endpoint's own response-model validation can still raise on
a non-exceptional orchestrator result whose categories value is not a list
of strings (the C3 passthrough bug), but that `ValidationError` is raised by
the transport binding itself, not an exception from Extraction, Fallback
resolution or Composition escaping uncaught. -/
theorem orchestrator_catches_all (query : String) (jwt_token : Option String)
    (cityCompletion catCompletion : Except String String) (backend : Backend)
    (composer : Composer) :
    let ctx := Server.the_context query jwt_token cityCompletion catCompletion backend
    (∀ text, composer ctx = .ok text →
      Server.process_user_query query jwt_token cityCompletion catCompletion backend composer =
        { response := text, city := extract_city_from_query cityCompletion,
          categories := extract_categories_from_query catCompletion }) ∧
    (∀ e, composer ctx = .error e →
      Server.process_user_query query jwt_token cityCompletion catCompletion backend composer =
        { response := apologetic e, city := none, categories := .list [] }) ∧
    (∀ key, optStrTruthy key = true → ∀ e, composer ctx = .error e →
      Server.query_nko key query jwt_token cityCompletion catCompletion backend composer =
        .ok { response := apologetic e, city := none, categories := [] }) ∧
    (∀ key e1 e2 eb ec, optStrTruthy key = true →
      Server.query_nko key query jwt_token (.error e1) (.error e2)
          (fun _ => .error eb) (fun _ => .error ec) =
        .ok { response := apologetic ec, city := none, categories := [] }) := by
  intro ctx
  refine ⟨fun text h => ?_, fun e h => ?_, fun key hk e h => ?_, fun key e1 e2 eb ec hk => ?_⟩
  · rw [Server.process_user_query_eq, h]
  · rw [Server.process_user_query_eq, h]
  · have hp : Server.process_user_query query jwt_token cityCompletion catCompletion
        backend composer =
        { response := apologetic e, city := none, categories := .list [] } := by
      rw [Server.process_user_query_eq, h]
    simp only [Server.query_nko, hk, hp]
    rfl
  · simp only [Server.query_nko, hk]
    rfl

/-- Closed instance of claim C7: a cycle whose extraction, backend calls and
composition all raise is converted to the apologetic shape, and with a
configured key the endpoint delivers it as a well-formed validated
response. -/
theorem orchestrator_catches_all_witness :
    (fun _ : RecommendationContext => (Except.error "сбой" : Except String String))
        (Server.the_context "запрос" none (Except.error "e") (Except.error "e")
          (fun _ => .error "отказ")) = .error "сбой" ∧
    Server.process_user_query "запрос" none (Except.error "e") (Except.error "e")
        (fun _ => .error "отказ") (fun _ => .error "сбой") =
      { response := apologetic "сбой", city := none, categories := .list [] } ∧
    optStrTruthy (some "ключ") = true ∧
    Server.query_nko (some "ключ") "запрос" none (Except.error "e") (Except.error "e")
        (fun _ => .error "отказ") (fun _ => .error "сбой") =
      .ok { response := apologetic "сбой", city := none, categories := [] } :=
  ⟨rfl,
   (orchestrator_catches_all "запрос" none (Except.error "e") (Except.error "e")
      (fun _ => .error "отказ") (fun _ => .error "сбой")).2.1 "сбой" rfl,
   rfl,
   (orchestrator_catches_all "запрос" none (Except.error "e") (Except.error "e")
      (fun _ => .error "отказ") (fun _ => .error "сбой")).2.2.2
     (some "ключ") "e" "e" "отказ" "сбой" rfl⟩

/-- Claim C8: while the provider API key is not configured (Python-falsy),
every `POST /query` call fails at once with the 500 configuration error, and
the outcome is independent of every oracle — no completion-provider or
backend call is ever consulted. -/
theorem query_requires_api_key (key : Option String) (h : optStrTruthy key = false)
    (query : String) (jwt_token : Option String)
    (cityCompletion catCompletion cityC' catC' : Except String String)
    (backend backend' : Backend) (composer composer' : Composer) :
    Server.query_nko key query jwt_token cityCompletion catCompletion backend composer =
      .error (.httpException 500 "OpenRouter API key not configured") ∧
    Server.query_nko key query jwt_token cityCompletion catCompletion backend composer =
      Server.query_nko key query jwt_token cityC' catC' backend' composer' := by
  constructor <;> simp [Server.query_nko, h]

/-- Closed instance of claim C8 at an absent key. -/
theorem query_requires_api_key_witness :
    optStrTruthy none = false ∧
    Server.query_nko none "запрос" none (Except.ok "Москва") (Except.ok "[]")
        (fun _ => .ok ["r"]) (fun _ => .ok "ответ") =
      .error (.httpException 500 "OpenRouter API key not configured") ∧
    Server.query_nko none "запрос" none (Except.ok "Москва") (Except.ok "[]")
        (fun _ => .ok ["r"]) (fun _ => .ok "ответ") =
      Server.query_nko none "запрос" none (Except.error "провал") (Except.error "провал")
        (fun _ => .error "провал") (fun _ => .error "провал") :=
  ⟨rfl,
   (query_requires_api_key none rfl "запрос" none (Except.ok "Москва") (Except.ok "[]")
      (Except.error "провал") (Except.error "провал") (fun _ => .ok ["r"])
      (fun _ => .error "провал") (fun _ => .ok "ответ") (fun _ => .error "провал")).1,
   (query_requires_api_key none rfl "запрос" none (Except.ok "Москва") (Except.ok "[]")
      (Except.error "провал") (Except.error "провал") (fun _ => .ok ["r"])
      (fun _ => .error "провал") (fun _ => .ok "ответ") (fun _ => .error "провал")).2⟩

/-- Claim C9: with no auth token and identical extraction results and backend
answers, the standalone runner builds the same parameter dictionary, issues
the same fallback cascade, builds the same recommendation context as the
HTTP server, and its returned string is exactly the `response` field of the
server's returned dictionary. -/
theorem runner_refines_server (query : String)
    (cityCompletion catCompletion : Except String String)
    (backend : Backend) (composer : Composer) :
    let city := extract_city_from_query cityCompletion
    let categories := extract_categories_from_query catCompletion
    Main.main_nko_params city categories = server_nko_params none city categories ∧
    fallback_calls backend city (Main.main_nko_params city categories) =
      fallback_calls backend city (server_nko_params none city categories) ∧
    build_context query city categories
        (fallback_result backend city (Main.main_nko_params city categories)) =
      Server.the_context query none cityCompletion catCompletion backend ∧
    Main.process_user_query query cityCompletion catCompletion backend composer =
      (Server.process_user_query query none cityCompletion catCompletion
        backend composer).response := by
  intro city categories
  have hp : Main.main_nko_params city categories = server_nko_params none city categories := by
    simp [Main.main_nko_params, server_nko_params, optStrTruthy]
  refine ⟨hp, by rw [hp], by rw [hp]; rfl, ?_⟩
  have hctx : build_context query city categories
      (fallback_result backend city (Main.main_nko_params city categories)) =
      Server.the_context query none cityCompletion catCompletion backend := by
    rw [hp]; rfl
  show (match composer (build_context query city categories
      (fallback_result backend city (Main.main_nko_params city categories))) with
    | .ok text => text
    | .error e => apologetic e) = _
  rw [hctx, Server.process_user_query_eq]
  rcases composer (Server.the_context query none cityCompletion catCompletion backend) <;> rfl

/-- Claim C10: calling the `get_nko_by_id` tool with `nko_id = 0` hits the
falsiness guard `if not nko_id:` exactly as an absent identifier does — it
returns the missing-argument message whatever the backend would answer, and
never contacts it. -/
theorem get_nko_by_id_zero_guard (backend backend' : Int → Except Mcp.BackendError String) :
    Mcp.get_nko_by_id (some 0) backend = ["Error: nko_id is required"] ∧
    Mcp.get_nko_by_id (some 0) backend = Mcp.get_nko_by_id (some 0) backend' ∧
    Mcp.get_nko_by_id none backend = ["Error: nko_id is required"] :=
  ⟨rfl, rfl, rfl⟩

end NKO
